import Mathlib

/-!
Shallow embedding of the ibkr-flex-statement-rs crate: a decoder for
InteractiveBrokers Flex XML statements.  Rust functions returning
`anyhow::Result` that may also panic (via `unwrap`) are embedded as
values of `ROut`; `panicked` models a process abort, `error` models a
recoverable returned `Err`, `ok` a returned `Ok`.  Machine floats
(`f64`) carry exact decimal literals in this code base, and no claim
depends on rounding, so numeric attribute values are embedded as exact
rationals.  The XML syntax parser (roxmltree) is an external
collaborator: documents are embedded as already-built attribute trees.
-/

/-- Outcome of a Rust function body: a panic (abort), a returned
recoverable error carrying its message, or a returned value.
Models `Result<T, anyhow::Error>` together with possible panics. -/
inductive ROut (α : Type) where
  | panicked
  | error (msg : String)
  | ok (val : α)
deriving DecidableEq

/-- Sequencing of fallible Rust computations: models the `?` operator
and panic propagation. -/
def ROut.bind {α β : Type} : ROut α → (α → ROut β) → ROut β
  | .panicked, _ => .panicked
  | .error m, _ => .error m
  | .ok a, f => f a

instance : Monad ROut where
  pure := ROut.ok
  bind := ROut.bind

/-- Models Rust `Option::unwrap`: panic on `None`. -/
def ROut.unwrapOpt {α : Type} : Option α → ROut α
  | none => .panicked
  | some a => .ok a

/-- Models `iter.map(f).collect::<Result<Vec<_>>>()`: stop at the first
non-`Ok` outcome, otherwise collect every value in order. -/
def collectROut {α β : Type} (f : α → ROut β) : List α → ROut (List β)
  | [] => .ok []
  | x :: xs =>
    match f x with
    | .panicked => .panicked
    | .error m => .error m
    | .ok b =>
      match collectROut f xs with
      | .panicked => .panicked
      | .error m => .error m
      | .ok bs => .ok (b :: bs)

/-- Models chrono's `LocalResult`: a naive local datetime may map to no
instant (DST gap), exactly one instant, or two instants (DST overlap,
earliest first). -/
inductive LocalResult (α : Type) where
  | gap
  | single (a : α)
  | ambiguous (earliest latest : α)
deriving DecidableEq

/-- Models `LocalResult::unwrap`: panics unless the result is single. -/
def LocalResult.unwrapSingle {α : Type} : LocalResult α → ROut α
  | .single a => .ok a
  | _ => .panicked

/-! ## Calendar model (chrono `NaiveDate` / `NaiveDateTime`) -/

/-- A calendar date, as in chrono's `NaiveDate`. -/
structure Date where
  year : Int
  month : Nat
  day : Nat
deriving DecidableEq

/-- Gregorian leap-year rule. -/
def isLeapYear (y : Int) : Bool :=
  y % 4 == 0 && (y % 100 != 0 || y % 400 == 0)

/-- Length of a month in the proleptic Gregorian calendar. -/
def daysInMonth (y : Int) (m : Nat) : Nat :=
  if m == 2 then (if isLeapYear y then 29 else 28)
  else if m == 4 || m == 6 || m == 9 || m == 11 then 30
  else 31

/-- Calendar validity as enforced by chrono's date constructors.  The
year bound embeds chrono's `NaiveDate` range; its exact fringe is
immaterial to every claim. -/
def validDate (y : Int) (m d : Nat) : Bool :=
  1 ≤ m && m ≤ 12 && 1 ≤ d && d ≤ daysInMonth y m && -262143 ≤ y && y ≤ 262142

/-- Days since 1970-01-01 of a proleptic Gregorian date (the standard
civil-from-days inverse used by chrono's internal day counting). -/
def daysFromCivil (dt : Date) : Int :=
  let y : Int := if dt.month ≤ 2 then dt.year - 1 else dt.year
  let era : Int := Int.ediv y 400
  let yoe : Int := y - era * 400
  let mp : Int := ((dt.month : Int) + 9) % 12
  let doy : Int := Int.ediv (153 * mp + 2) 5 + (dt.day : Int) - 1
  let doe : Int := yoe * 365 + Int.ediv yoe 4 - Int.ediv yoe 100 + doy
  era * 146097 + doe - 719468

/-- Day of week, Sunday = 0 (1970-01-01 was a Thursday = 4). -/
def dayOfWeek (dt : Date) : Int :=
  (daysFromCivil dt + 4) % 7

/-- Day of month of the first Sunday of the given month. -/
def firstSundayDay (y : Int) (m : Nat) : Nat :=
  (1 + (7 - dayOfWeek ⟨y, m, 1⟩) % 7).toNat

/-- Day of month of the second Sunday in March of the given year. -/
def secondSundayMarch (y : Int) : Nat :=
  firstSundayDay y 3 + 7

/-- Day of month of the first Sunday in November of the given year. -/
def firstSundayNovember (y : Int) : Nat :=
  firstSundayDay y 11

/-- Naive local wall-clock key: seconds since the epoch if the wall
clock were UTC. -/
def naiveKey (d : Date) (secs : Nat) : Int :=
  daysFromCivil d * 86400 + (secs : Int)

/-- A timezone, embedded by its chrono `from_local_datetime` behaviour:
local date + seconds-of-day to epoch-second instants. -/
structure Tz where
  fromLocal : Date → Nat → LocalResult Int

/-- America/New_York as chrono-tz resolves it for the tz database's
current rule (in force since 2007, and projected forward by the tzdb):
EST = UTC-5; EDT = UTC-4 between 02:00 local on the second Sunday of
March (the hour 02:00-02:59 does not exist) and 02:00 local on the
first Sunday of November (the hour 01:00-01:59 occurs twice, EDT
instant first).  Every date in the repository's data and in the claims
falls inside this rule's validity. -/
def nyFromLocal (d : Date) (secs : Nat) : LocalResult Int :=
  let k := naiveKey d secs
  let sSpring := daysFromCivil ⟨d.year, 3, secondSundayMarch d.year⟩ * 86400
  let sFall := daysFromCivil ⟨d.year, 11, firstSundayNovember d.year⟩ * 86400
  if k < sSpring + 7200 then .single (k + 18000)
  else if k < sSpring + 10800 then .gap
  else if k < sFall + 3600 then .single (k + 14400)
  else if k < sFall + 7200 then .ambiguous (k + 14400) (k + 18000)
  else .single (k + 18000)

/-- America/New_York packaged as a timezone value. -/
def newYork : Tz :=
  ⟨nyFromLocal⟩

/-! ## String scanning helpers (List Char models Rust `&str` slices) -/

/-- Numeric value of a run of ASCII digits. -/
def natOfDigits (l : List Char) : Nat :=
  l.foldl (fun a c => a * 10 + (c.toNat - 48)) 0

/-- Models Rust `str::split(" ")`: pieces between single-space
separators, empty pieces included; never returns an empty list. -/
def splitSpace : List Char → List (List Char)
  | [] => [[]]
  | c :: rest =>
    if c = ' ' then [] :: splitSpace rest
    else
      match splitSpace rest with
      | [] => [[c]]
      | p :: ps => (c :: p) :: ps

/-- Parse of `NaiveDate::parse_from_str(s, "%Y-%m-%d")`: optionally
signed year digits, dash, 1-2 digit month, dash, 1-2 digit day, whole
input consumed, calendar-valid. -/
def parseDateCore (neg : Bool) (l : List Char) : Option Date :=
  let (yd, r1) := l.span Char.isDigit
  if yd.isEmpty then none else
  match r1 with
  | '-' :: r2 =>
    let (md, r3) := r2.span Char.isDigit
    if md.isEmpty || md.length > 2 then none else
    match r3 with
    | '-' :: r4 =>
      let (dd, r5) := r4.span Char.isDigit
      if dd.isEmpty || dd.length > 2 || !r5.isEmpty then none else
      let y : Int := if neg then -(natOfDigits yd : Int) else (natOfDigits yd : Int)
      if validDate y (natOfDigits md) (natOfDigits dd) then
        some ⟨y, natOfDigits md, natOfDigits dd⟩
      else none
    | _ => none
  | _ => none

/-- `NaiveDate::parse_from_str` with format `%Y-%m-%d`. -/
def parseDate (s : String) : Option Date :=
  match s.data with
  | '-' :: rest => parseDateCore true rest
  | l => parseDateCore false l

/-- Parse of the datetime token with chrono format
`%Y-%m-%d;%H:%M:%S %Z` as applied by the trade decoder: date, `;`,
1-2 digit hour, minute, second fields; the trailing `%Z` item consumes
any remaining non-space characters, so a trailing tail is ignored
(the token, split off before the first space, contains no space).
Returns the date and the second-of-day. -/
def parseTradeDateTime (l : List Char) : Option (Date × Nat) :=
  let (yd, r1) := l.span Char.isDigit
  if yd.isEmpty then none else
  match r1 with
  | '-' :: r2 =>
    let (md, r3) := r2.span Char.isDigit
    if md.isEmpty || md.length > 2 then none else
    match r3 with
    | '-' :: r4 =>
      let (dd, r5) := r4.span Char.isDigit
      if dd.isEmpty || dd.length > 2 then none else
      match r5 with
      | ';' :: r6 =>
        let (hd, r7) := r6.span Char.isDigit
        if hd.isEmpty || hd.length > 2 then none else
        match r7 with
        | ':' :: r8 =>
          let (mind, r9) := r8.span Char.isDigit
          if mind.isEmpty || mind.length > 2 then none else
          match r9 with
          | ':' :: r10 =>
            let (sd, _) := r10.span Char.isDigit
            if sd.isEmpty || sd.length > 2 then none else
            let y : Int := (natOfDigits yd : Int)
            let mo := natOfDigits md
            let da := natOfDigits dd
            let h := natOfDigits hd
            let mi := natOfDigits mind
            let se := natOfDigits sd
            if validDate y mo da && h ≤ 23 && mi ≤ 59 && se ≤ 59 then
              some (⟨y, mo, da⟩, h * 3600 + mi * 60 + se)
            else none
          | _ => none
        | _ => none
      | _ => none
    | _ => none
  | _ => none

/-- Rust `u32::from_str`: optional plus sign, decimal digits, in-range. -/
def parseU32 (s : String) : Option Nat :=
  let l := match s.data with
    | '+' :: rest => rest
    | l => l
  if l.isEmpty || !(l.all Char.isDigit) then none
  else if natOfDigits l < 4294967296 then some (natOfDigits l) else none

/-- Rust `f64::from_str` on the decimal forms this format carries
(optional sign, digits with optional fraction, optional exponent),
embedded exactly as a rational: no claim depends on f64 rounding. -/
def parseDecimal (s : String) : Option Rat :=
  let (sgn, l) : Int × List Char := match s.data with
    | '-' :: rest => (-1, rest)
    | '+' :: rest => (1, rest)
    | l => (1, l)
  let (ip, r1) := l.span Char.isDigit
  let (fp, r2) : List Char × List Char := match r1 with
    | '.' :: rest => rest.span Char.isDigit
    | _ => ([], r1)
  let hadDot : Bool := match r1 with
    | '.' :: _ => true
    | _ => false
  if ip.isEmpty && fp.isEmpty then none else
  let r3 := if hadDot then r2 else r1
  let expOpt : Option Int := match r3 with
    | [] => some 0
    | 'e' :: rest =>
      match rest with
      | '-' :: ds => if ds.isEmpty || !(ds.all Char.isDigit) then none else some (-(natOfDigits ds : Int))
      | '+' :: ds => if ds.isEmpty || !(ds.all Char.isDigit) then none else some (natOfDigits ds : Int)
      | ds => if ds.isEmpty || !(ds.all Char.isDigit) then none else some (natOfDigits ds : Int)
    | 'E' :: rest =>
      match rest with
      | '-' :: ds => if ds.isEmpty || !(ds.all Char.isDigit) then none else some (-(natOfDigits ds : Int))
      | '+' :: ds => if ds.isEmpty || !(ds.all Char.isDigit) then none else some (natOfDigits ds : Int)
      | ds => if ds.isEmpty || !(ds.all Char.isDigit) then none else some (natOfDigits ds : Int)
    | _ => none
  match expOpt with
  | none => none
  | some ex =>
    some (mkRat (sgn * (natOfDigits ip * 10 ^ fp.length + natOfDigits fp : Int) * 10 ^ ex.toNat)
      (10 ^ (fp.length + (-ex).toNat)))

/-! ## time_utils.rs -/

/-- `time_utils::timestamp_ms_at_hour`: parse a `%Y-%m-%d` date
(recoverable error on failure), take the given whole hour
(`and_hms_opt(hour, 0, 0).unwrap()`: panic if the hour is out of
range), resolve it as local wall clock in the timezone
(`from_local_datetime(..).unwrap()`: panic unless single), and return
epoch milliseconds. -/
def timestamp_ms_at_hour (date : String) (timezone : Tz) (hour : Nat) : ROut Int :=
  match parseDate date with
  | none => .error "input contains invalid characters"
  | some d =>
    if hour ≤ 23 then
      match timezone.fromLocal d (hour * 3600) with
      | .single secs => .ok (secs * 1000)
      | _ => .panicked
    else .panicked

/-- `time_utils::trading_eod_after_hours_timestamp_ms`: 20:00
America/New_York on the given date. -/
def trading_eod_after_hours_timestamp_ms (date : String) : ROut Int :=
  timestamp_ms_at_hour date newYork 20

/-! ## XML element model and node_utils.rs -/

/-- An XML element as supplied to the decoders by roxmltree: a tag
name, named string attributes (names unique), and child elements. -/
structure XmlNode where
  tag : String
  attrs : List (String × String)
  children : List XmlNode

/-- roxmltree `Node::attribute(name)`: the value of the attribute with
that case-sensitive name, if present. -/
def lookupAttr (n : XmlNode) (name : String) : Option String :=
  (n.attrs.find? (fun p => p.1 == name)).map (fun p => p.2)

mutual

/-- roxmltree `Node::descendants()`: the node itself followed by all
descendants in document order. -/
def XmlNode.descendants : XmlNode → List XmlNode
  | .mk t a cs => .mk t a cs :: descendantsList cs

/-- Descendants of each node of a forest, in document order. -/
def descendantsList : List XmlNode → List XmlNode
  | [] => []
  | c :: cs => c.descendants ++ descendantsList cs

end

/-- `NodeWrapper::get_attribute`: `Ok` of the attribute text, but the
lookup is unwrapped first, so an absent attribute panics. -/
def get_attribute (n : XmlNode) (attribute_name : String) : ROut String :=
  match lookupAttr n attribute_name with
  | none => .panicked
  | some s => .ok s

/-- `NodeWrapper::get_attribute_opt`: present and non-empty gives the
text; absent or present-but-empty gives none. -/
def get_attribute_opt (n : XmlNode) (attribute_name : String) : Option String :=
  match lookupAttr n attribute_name with
  | some s => if s.isEmpty then none else some s
  | none => none

/-- `NodeWrapper::parse_attribute::<T>`, generic over the `FromStr`
parse function of `T`: unwrap the lookup (panic if absent), then parse
(recoverable error if unparsable). -/
def parse_attribute {τ : Type} (n : XmlNode) (fromStr : String → Option τ)
    (attribute_name : String) : ROut τ :=
  match lookupAttr n attribute_name with
  | none => .panicked
  | some s =>
    match fromStr s with
    | none => .error "invalid scalar literal"
    | some v => .ok v

/-- `NodeWrapper::parse_attribute_opt::<T>`: absent or empty gives
`Ok(None)`; otherwise parse (recoverable error if unparsable). -/
def parse_attribute_opt {τ : Type} (n : XmlNode) (fromStr : String → Option τ)
    (attribute_name : String) : ROut (Option τ) :=
  match lookupAttr n attribute_name with
  | some s =>
    if s.isEmpty then .ok none
    else
      match fromStr s with
      | none => .error "invalid scalar literal"
      | some v => .ok (some v)
  | none => .ok none

/-! ## Closed-set decoders (currency.rs, asset_category.rs, trade.rs,
account_info.rs / open_position.rs) -/

/-- currency.rs `Currency`. -/
inductive Currency where
  | BASE
  | CAD
  | USD
deriving DecidableEq

/-- `Currency::try_from(&str)`: string-literal match arms embedded as
an equality chain. -/
def Currency.tryFrom (s : String) : Except String Currency :=
  if s = "BASE_SUMMARY" then .ok .BASE
  else if s = "CAD" then .ok .CAD
  else if s = "USD" then .ok .USD
  else .error ("unknown currency " ++ s)

/-- asset_category.rs `AssetCategory`. -/
inductive AssetCategory where
  | Crypto
  | Stock
deriving DecidableEq

/-- `AssetCategory::try_from(&str)`. -/
def AssetCategory.tryFrom (s : String) : Except String AssetCategory :=
  if s = "CRYPTO" then .ok .Crypto
  else if s = "STK" then .ok .Stock
  else .error ("unsupported asset category " ++ s)

/-- trade.rs `TradeSide`. -/
inductive TradeSide where
  | Buy
  | Sell
deriving DecidableEq

/-- `TradeSide::try_from(&str)`. -/
def TradeSide.tryFrom (s : String) : Except String TradeSide :=
  if s = "BUY" then .ok .Buy
  else if s = "SELL" then .ok .Sell
  else .error ("unknown trade side " ++ s)

/-- trade.rs `OpenCloseIndicator`. -/
inductive OpenCloseIndicator where
  | Close
  | CloseOpen
  | Open
deriving DecidableEq

/-- `OpenCloseIndicator::try_from(&str)`. -/
def OpenCloseIndicator.tryFrom (s : String) : Except String OpenCloseIndicator :=
  if s = "C" then .ok .Close
  else if s = "C;O" then .ok .CloseOpen
  else if s = "O" then .ok .Open
  else .error ("unknown openClose indicator " ++ s)

/-- trade.rs `OrderType`. -/
inductive OrderType where
  | Limit
deriving DecidableEq

/-- `OrderType::try_from(&str)`. -/
def OrderType.tryFrom (s : String) : Except String OrderType :=
  if s = "LMT" then .ok .Limit
  else .error ("unknown order type " ++ s)

/-- `PositionSide` (defined identically in account_info.rs and
open_position.rs; embedded once). -/
inductive PositionSide where
  | Long
  | Short
deriving DecidableEq

/-- `PositionSide::try_from(&str)`. -/
def PositionSide.tryFrom (s : String) : Except String PositionSide :=
  if s = "Long" then .ok .Long
  else if s = "Short" then .ok .Short
  else .error ("unknown position side " ++ s)

/-- Lift a `try_from` result into a decoder outcome (the `?` operator
on a `Result`: never a panic). -/
def ROut.ofExcept {α : Type} : Except String α → ROut α
  | .ok a => .ok a
  | .error m => .error m

/-! ## Record decoders.  Each `from_node` evaluates its steps in the
Rust source's evaluation order (statements first, then struct-literal
fields in their written order), so panics and the first recoverable
error propagate exactly as in the source. -/

/-- account_info.rs `AccountInfo`. -/
structure AccountInfo where
  account_id : String
deriving DecidableEq

/-- `AccountInfo::from_node` (account_info.rs). -/
def AccountInfo.from_node (n : XmlNode) : ROut AccountInfo :=
  (get_attribute n "accountId").bind fun account_id =>
  .ok ⟨account_id⟩

/-- cash_report.rs `CashReport`, fields in source order. -/
structure CashReport where
  account_id : String
  currency : Currency
  start_timestamp_ms : Int
  end_timestamp_ms : Int
  starting_cash : Rat
  ending_cash : Rat
  ending_settled_cash : Rat
  net_trade_purchases : Rat
  net_trade_sales : Rat
  commissions : Rat
  commissions_mtd : Option Rat
  commissions_ytd : Option Rat
  other_fees : Rat
  other_fees_mtd : Option Rat
  other_fees_ytd : Option Rat
  dividends : Rat
  dividends_mtd : Option Rat
  dividends_ytd : Option Rat
  interest : Rat
  interest_mtd : Option Rat
  interest_ytd : Option Rat
  deposits : Rat
  deposits_mtd : Option Rat
  deposits_ytd : Option Rat
  withdrawals : Rat
  withdrawals_mtd : Option Rat
  withdrawals_ytd : Option Rat
deriving DecidableEq

/-- `CashReport::from_node` (cash_report.rs): the period-start instant
is the fromDate trading close minus one day of milliseconds plus one
millisecond (computed first), then the struct fields in written order;
the period-end instant (computed last) is the toDate trading close. -/
def CashReport.from_node (n : XmlNode) : ROut CashReport :=
  (ROut.unwrapOpt (lookupAttr n "fromDate")).bind fun fromDate =>
  (trading_eod_after_hours_timestamp_ms fromDate).bind fun start_date_eod_ms_plus_one =>
  let start_timestamp_ms := start_date_eod_ms_plus_one - (60 * 60 * 24 * 1000) + 1
  (get_attribute n "accountId").bind fun account_id =>
  (ROut.unwrapOpt (lookupAttr n "currency")).bind fun currencyStr =>
  (ROut.ofExcept (Currency.tryFrom currencyStr)).bind fun currency =>
  (parse_attribute n parseDecimal "startingCash").bind fun starting_cash =>
  (parse_attribute n parseDecimal "endingCash").bind fun ending_cash =>
  (parse_attribute n parseDecimal "endingSettledCash").bind fun ending_settled_cash =>
  (parse_attribute n parseDecimal "netTradesPurchases").bind fun net_trade_purchases =>
  (parse_attribute n parseDecimal "netTradesSales").bind fun net_trade_sales =>
  (parse_attribute n parseDecimal "commissions").bind fun commissions =>
  (parse_attribute_opt n parseDecimal "commissionsMTD").bind fun commissions_mtd =>
  (parse_attribute_opt n parseDecimal "commissionsYTD").bind fun commissions_ytd =>
  (parse_attribute n parseDecimal "otherFees").bind fun other_fees =>
  (parse_attribute_opt n parseDecimal "otherFeesMTD").bind fun other_fees_mtd =>
  (parse_attribute_opt n parseDecimal "otherFeesYTD").bind fun other_fees_ytd =>
  (parse_attribute n parseDecimal "dividends").bind fun dividends =>
  (parse_attribute_opt n parseDecimal "dividendsMTD").bind fun dividends_mtd =>
  (parse_attribute_opt n parseDecimal "dividendsYTD").bind fun dividends_ytd =>
  (parse_attribute n parseDecimal "brokerInterest").bind fun interest =>
  (parse_attribute_opt n parseDecimal "brokerInterestMTD").bind fun interest_mtd =>
  (parse_attribute_opt n parseDecimal "brokerInterestYTD").bind fun interest_ytd =>
  (parse_attribute n parseDecimal "deposits").bind fun deposits =>
  (parse_attribute_opt n parseDecimal "depositsMTD").bind fun deposits_mtd =>
  (parse_attribute_opt n parseDecimal "depositsYTD").bind fun deposits_ytd =>
  (parse_attribute n parseDecimal "withdrawals").bind fun withdrawals =>
  (parse_attribute_opt n parseDecimal "withdrawalsMTD").bind fun withdrawals_mtd =>
  (parse_attribute_opt n parseDecimal "withdrawalsYTD").bind fun withdrawals_ytd =>
  (ROut.unwrapOpt (lookupAttr n "toDate")).bind fun toDate =>
  (trading_eod_after_hours_timestamp_ms toDate).bind fun end_timestamp_ms =>
  .ok ⟨account_id, currency, start_timestamp_ms, end_timestamp_ms,
    starting_cash, ending_cash, ending_settled_cash,
    net_trade_purchases, net_trade_sales,
    commissions, commissions_mtd, commissions_ytd,
    other_fees, other_fees_mtd, other_fees_ytd,
    dividends, dividends_mtd, dividends_ytd,
    interest, interest_mtd, interest_ytd,
    deposits, deposits_mtd, deposits_ytd,
    withdrawals, withdrawals_mtd, withdrawals_ytd⟩

/-- equity_summary.rs `EquitySummary`. -/
structure EquitySummary where
  account_id : String
  cash_balance : Rat
  cash_balance_long : Rat
  cash_balance_short : Rat
  currency : Currency
  interest_accrual_mtd : Rat
  interest_accrual_mtd_long : Rat
  interest_accrual_mtd_short : Rat
  stock_balance : Rat
  stock_balance_long : Rat
  stock_balance_short : Rat
  timestamp_eod_ms : Int
deriving DecidableEq

/-- `EquitySummary::from_node` (equity_summary.rs). -/
def EquitySummary.from_node (n : XmlNode) : ROut EquitySummary :=
  (get_attribute n "accountId").bind fun account_id =>
  (parse_attribute n parseDecimal "cash").bind fun cash_balance =>
  (parse_attribute n parseDecimal "cashLong").bind fun cash_balance_long =>
  (parse_attribute n parseDecimal "cashShort").bind fun cash_balance_short =>
  (ROut.unwrapOpt (lookupAttr n "currency")).bind fun currencyStr =>
  (ROut.ofExcept (Currency.tryFrom currencyStr)).bind fun currency =>
  (parse_attribute n parseDecimal "interestAccruals").bind fun interest_accrual_mtd =>
  (parse_attribute n parseDecimal "interestAccrualsLong").bind fun interest_accrual_mtd_long =>
  (parse_attribute n parseDecimal "interestAccrualsShort").bind fun interest_accrual_mtd_short =>
  (parse_attribute n parseDecimal "stock").bind fun stock_balance =>
  (parse_attribute n parseDecimal "stockLong").bind fun stock_balance_long =>
  (parse_attribute n parseDecimal "stockShort").bind fun stock_balance_short =>
  (ROut.unwrapOpt (lookupAttr n "reportDate")).bind fun reportDate =>
  (trading_eod_after_hours_timestamp_ms reportDate).bind fun timestamp_eod_ms =>
  .ok ⟨account_id, cash_balance, cash_balance_long, cash_balance_short, currency,
    interest_accrual_mtd, interest_accrual_mtd_long, interest_accrual_mtd_short,
    stock_balance, stock_balance_long, stock_balance_short, timestamp_eod_ms⟩

/-- fifo_performance_summary.rs `FIFOPerformanceSummary`. -/
structure FIFOPerformanceSummary where
  account_id : String
  timestamp_eod_ms : Int
  ticker : Option String
  conid : Option Nat
  listing_exchange : Option String
  realized_st_profit : Rat
  realized_st_loss : Rat
  unrealized_st_profit : Rat
  unrealized_st_loss : Rat
  realized_lt_profit : Rat
  realized_lt_loss : Rat
  unrealized_lt_profit : Rat
  unrealized_lt_loss : Rat
  total_realized_pnl : Rat
  total_fifo_pnl : Rat
deriving DecidableEq

/-- `FIFOPerformanceSummary::from_node` (fifo_performance_summary.rs):
instrument fields are optional (blank or absent collapses to none). -/
def FIFOPerformanceSummary.from_node (n : XmlNode) : ROut FIFOPerformanceSummary :=
  (get_attribute n "accountId").bind fun account_id =>
  (ROut.unwrapOpt (lookupAttr n "reportDate")).bind fun reportDate =>
  (trading_eod_after_hours_timestamp_ms reportDate).bind fun timestamp_eod_ms =>
  let ticker := get_attribute_opt n "symbol"
  (parse_attribute_opt n parseU32 "conid").bind fun conid =>
  let listing_exchange := get_attribute_opt n "listingExchange"
  (parse_attribute n parseDecimal "realizedSTProfit").bind fun realized_st_profit =>
  (parse_attribute n parseDecimal "realizedSTLoss").bind fun realized_st_loss =>
  (parse_attribute n parseDecimal "unrealizedSTProfit").bind fun unrealized_st_profit =>
  (parse_attribute n parseDecimal "unrealizedSTLoss").bind fun unrealized_st_loss =>
  (parse_attribute n parseDecimal "realizedLTProfit").bind fun realized_lt_profit =>
  (parse_attribute n parseDecimal "realizedLTLoss").bind fun realized_lt_loss =>
  (parse_attribute n parseDecimal "unrealizedLTProfit").bind fun unrealized_lt_profit =>
  (parse_attribute n parseDecimal "unrealizedLTLoss").bind fun unrealized_lt_loss =>
  (parse_attribute n parseDecimal "totalRealizedPnl").bind fun total_realized_pnl =>
  (parse_attribute n parseDecimal "totalFifoPnl").bind fun total_fifo_pnl =>
  .ok ⟨account_id, timestamp_eod_ms, ticker, conid, listing_exchange,
    realized_st_profit, realized_st_loss, unrealized_st_profit, unrealized_st_loss,
    realized_lt_profit, realized_lt_loss, unrealized_lt_profit, unrealized_lt_loss,
    total_realized_pnl, total_fifo_pnl⟩

/-- net_stock_position.rs `NetStockPosition`. -/
structure NetStockPosition where
  account_id : String
  asset_category : AssetCategory
  conid : Nat
  currency : Currency
  listing_exchange : String
  net_shares : Rat
  ticker : String
deriving DecidableEq

/-- `NetStockPosition::from_node` (net_stock_position.rs). -/
def NetStockPosition.from_node (n : XmlNode) : ROut NetStockPosition :=
  (get_attribute n "accountId").bind fun account_id =>
  (ROut.unwrapOpt (lookupAttr n "assetCategory")).bind fun assetCategoryStr =>
  (ROut.ofExcept (AssetCategory.tryFrom assetCategoryStr)).bind fun asset_category =>
  (parse_attribute n parseU32 "conid").bind fun conid =>
  (ROut.unwrapOpt (lookupAttr n "currency")).bind fun currencyStr =>
  (ROut.ofExcept (Currency.tryFrom currencyStr)).bind fun currency =>
  (parse_attribute n parseDecimal "netShares").bind fun net_shares =>
  (get_attribute n "listingExchange").bind fun listing_exchange =>
  (get_attribute n "symbol").bind fun ticker =>
  .ok ⟨account_id, asset_category, conid, currency, listing_exchange, net_shares, ticker⟩

/-- open_position.rs `OpenPosition`. -/
structure OpenPosition where
  account_id : String
  asset_category : AssetCategory
  conid : Nat
  cost_basis_price : Rat
  fifo_pnl_unrealized : Rat
  currency : Currency
  listing_exchange : String
  mark_price : Rat
  open_quantity : Rat
  position_value : Rat
  timestamp_eod_ms : Int
  ticker : String
  side : PositionSide
deriving DecidableEq

/-- `OpenPosition::from_node` (open_position.rs). -/
def OpenPosition.from_node (n : XmlNode) : ROut OpenPosition :=
  (get_attribute n "accountId").bind fun account_id =>
  (ROut.unwrapOpt (lookupAttr n "assetCategory")).bind fun assetCategoryStr =>
  (ROut.ofExcept (AssetCategory.tryFrom assetCategoryStr)).bind fun asset_category =>
  (parse_attribute n parseU32 "conid").bind fun conid =>
  (parse_attribute n parseDecimal "costBasisPrice").bind fun cost_basis_price =>
  (ROut.unwrapOpt (lookupAttr n "currency")).bind fun currencyStr =>
  (ROut.ofExcept (Currency.tryFrom currencyStr)).bind fun currency =>
  (parse_attribute n parseDecimal "fifoPnlUnrealized").bind fun fifo_pnl_unrealized =>
  (get_attribute n "listingExchange").bind fun listing_exchange =>
  (parse_attribute n parseDecimal "markPrice").bind fun mark_price =>
  (parse_attribute n parseDecimal "position").bind fun open_quantity =>
  (parse_attribute n parseDecimal "positionValue").bind fun position_value =>
  (ROut.unwrapOpt (lookupAttr n "side")).bind fun sideStr =>
  (ROut.ofExcept (PositionSide.tryFrom sideStr)).bind fun side =>
  (get_attribute n "symbol").bind fun ticker =>
  (ROut.unwrapOpt (lookupAttr n "reportDate")).bind fun reportDate =>
  (trading_eod_after_hours_timestamp_ms reportDate).bind fun timestamp_eod_ms =>
  .ok ⟨account_id, asset_category, conid, cost_basis_price, fifo_pnl_unrealized,
    currency, listing_exchange, mark_price, open_quantity, position_value,
    timestamp_eod_ms, ticker, side⟩

/-! ## trade.rs -/

/-- trade.rs `Trade`. -/
structure Trade where
  account_id : String
  conid : Nat
  currency : Currency
  execution_exchange : String
  execution_id : String
  execution_timestamp_ms : Int
  commission : Rat
  listing_exchange : String
  open_close_indicator : OpenCloseIndicator
  order_id : String
  order_type : OrderType
  price : Rat
  quantity : Rat
  side : TradeSide
  ticker : String
deriving DecidableEq

/-- `trade::try_parse_trade_execution_time_ms`: split the attribute
string on single spaces; the first token is the naive datetime and the
second the timezone abbreviation (`next().unwrap()`: panic when there
is no second token); the abbreviation is looked up in the
caller-supplied table (`get(..).unwrap()`: panic when absent); then
the datetime token is parsed (recoverable error on failure) and
resolved as local wall clock (`from_local_datetime(..).unwrap()`:
panic unless single), giving epoch milliseconds. -/
def try_parse_trade_execution_time_ms (tz_map : List (String × Tz)) (s : String) : ROut Int :=
  match splitSpace s.data with
  | [] => .panicked
  | datetime_str :: rest =>
    match rest with
    | [] => .panicked
    | short_timezone :: _ =>
      match (tz_map.find? (fun p => p.1 == String.mk short_timezone)).map (fun p => p.2) with
      | none => .panicked
      | some timezone =>
        match parseTradeDateTime datetime_str with
        | none => .error "input contains invalid characters"
        | some (d, secs) =>
          match timezone.fromLocal d secs with
          | .single es => .ok (es * 1000)
          | _ => .panicked

/-- `Trade::from_node` (trade.rs), fields in written order. -/
def Trade.from_node (n : XmlNode) (tz_map : List (String × Tz)) : ROut Trade :=
  (get_attribute n "accountId").bind fun account_id =>
  (parse_attribute n parseDecimal "ibCommission").bind fun commission =>
  (parse_attribute n parseU32 "conid").bind fun conid =>
  (ROut.unwrapOpt (lookupAttr n "currency")).bind fun currencyStr =>
  (ROut.ofExcept (Currency.tryFrom currencyStr)).bind fun currency =>
  (get_attribute n "exchange").bind fun execution_exchange =>
  (get_attribute n "ibExecID").bind fun execution_id =>
  (ROut.unwrapOpt (lookupAttr n "dateTime")).bind fun dateTimeStr =>
  (try_parse_trade_execution_time_ms tz_map dateTimeStr).bind fun execution_timestamp_ms =>
  (get_attribute n "listingExchange").bind fun listing_exchange =>
  (ROut.unwrapOpt (lookupAttr n "openCloseIndicator")).bind fun ociStr =>
  (ROut.ofExcept (OpenCloseIndicator.tryFrom ociStr)).bind fun open_close_indicator =>
  (get_attribute n "brokerageOrderID").bind fun order_id =>
  (ROut.unwrapOpt (lookupAttr n "orderType")).bind fun orderTypeStr =>
  (ROut.ofExcept (OrderType.tryFrom orderTypeStr)).bind fun order_type =>
  (parse_attribute n parseDecimal "tradePrice").bind fun price =>
  (parse_attribute n parseDecimal "quantity").bind fun quantity =>
  (ROut.unwrapOpt (lookupAttr n "buySell")).bind fun sideStr =>
  (ROut.ofExcept (TradeSide.tryFrom sideStr)).bind fun side =>
  (get_attribute n "symbol").bind fun ticker =>
  .ok ⟨account_id, conid, currency, execution_exchange, execution_id,
    execution_timestamp_ms, commission, listing_exchange, open_close_indicator,
    order_id, order_type, price, quantity, side, ticker⟩

/-! ## lib.rs: statement assembly -/

/-- lib.rs `Statement`. -/
structure Statement where
  account_info : AccountInfo
  cash_reports : List CashReport
  equity_summaries : List EquitySummary
  fifo_performance_summaries : List FIFOPerformanceSummary
  net_stock_positions : List NetStockPosition
  open_positions : List OpenPosition
  trades : List Trade
deriving DecidableEq

/-- The timezone table built by `Parser::new`: EST and EDT both map to
America/New_York. -/
def defaultTimezoneMap : List (String × Tz) :=
  [("EST", newYork), ("EDT", newYork)]

/-- `Parser::parse_section::<T>`: decode every descendant element whose
tag equals the section name, in document order, all-or-nothing. -/
def parse_section {τ : Type} (from_node : XmlNode → ROut τ)
    (node : XmlNode) (section_name : String) : ROut (List τ) :=
  collectROut from_node (node.descendants.filter (fun d => d.tag == section_name))

/-- `Parser::parse_flex_statement`: decode the AccountInformation
sections, require exactly one, then decode every remaining record
kind, failing fast. -/
def parse_flex_statement (tz_map : List (String × Tz)) (node : XmlNode) : ROut Statement :=
  (parse_section AccountInfo.from_node node "AccountInformation").bind fun account_infos =>
  if account_infos.length > 1 then
    .error "multiple account information sections found"
  else
    match account_infos with
    | [] => .error "no account information sections found"
    | account_info :: _ =>
      (parse_section CashReport.from_node node "CashReportCurrency").bind fun cash_reports =>
      (parse_section EquitySummary.from_node node "EquitySummaryByReportDateInBase").bind fun equity_summaries =>
      (parse_section FIFOPerformanceSummary.from_node node "FIFOPerformanceSummaryUnderlying").bind fun fifo_performance_summaries =>
      (parse_section NetStockPosition.from_node node "NetStockPosition").bind fun net_stock_positions =>
      (parse_section OpenPosition.from_node node "OpenPosition").bind fun open_positions =>
      (parse_section (fun m => Trade.from_node m tz_map) node "Trade").bind fun trades =>
      .ok ⟨account_info, cash_reports, equity_summaries, fifo_performance_summaries,
        net_stock_positions, open_positions, trades⟩

/-- The FlexStatement boundary elements of a document, in document
order. -/
def flexStatementNodes (doc : XmlNode) : List XmlNode :=
  doc.descendants.filter (fun d => d.tag == "FlexStatement")

/-- `Parser::parse_flex_query_response`, applied to the already-built
document tree (the XML syntax parse by roxmltree is the external
collaborator): decode every FlexStatement boundary, all-or-nothing. -/
def parse_flex_query_response (tz_map : List (String × Tz)) (doc : XmlNode) : ROut (List Statement) :=
  collectROut (parse_flex_statement tz_map) (flexStatementNodes doc)

/-- The spec's statement-structure error class: the errors raised by
the exactly-one-AccountInformation requirement. -/
def IsStatementStructureError (msg : String) : Prop :=
  msg = "no account information sections found" ∨
    msg = "multiple account information sections found"

/-! ## Concrete fixture documents used to instantiate the theorems -/

/-- An element with one populated and one blank attribute. -/
def fixtureAttrNode : XmlNode :=
  ⟨"X", [("present", "v"), ("blank", "")], []⟩

/-- An AccountInformation element for account U1. -/
def fixtureAccountInfoU1 : XmlNode :=
  ⟨"AccountInformation", [("accountId", "U1")], []⟩

/-- An AccountInformation element for account U2. -/
def fixtureAccountInfoU2 : XmlNode :=
  ⟨"AccountInformation", [("accountId", "U2")], []⟩

/-- A FlexStatement with exactly one AccountInformation descendant. -/
def fixtureStatementOne : XmlNode :=
  ⟨"FlexStatement", [], [fixtureAccountInfoU1]⟩

/-- A FlexStatement with no AccountInformation descendant. -/
def fixtureStatementZero : XmlNode :=
  ⟨"FlexStatement", [], []⟩

/-- A FlexStatement with two AccountInformation descendants. -/
def fixtureStatementTwo : XmlNode :=
  ⟨"FlexStatement", [], [fixtureAccountInfoU1, fixtureAccountInfoU2]⟩

/-- The statement decoded from `fixtureStatementOne`. -/
def fixtureDecodedOne : Statement :=
  ⟨⟨"U1"⟩, [], [], [], [], [], []⟩

/-- A document holding one well-formed statement. -/
def fixtureDocOne : XmlNode :=
  ⟨"FlexQueryResponse", [], [fixtureStatementOne]⟩

/-- A document holding a well-formed statement followed by a statement
with no AccountInformation. -/
def fixtureDocOneThenZero : XmlNode :=
  ⟨"FlexQueryResponse", [], [fixtureStatementOne, fixtureStatementZero]⟩

/-- The required attributes of a CashReportCurrency element, with
period 2025-04-25 and every other scalar zero; the MTD/YTD attributes
are entirely absent. -/
def fixtureCashAttrs : List (String × String) :=
  [("accountId", "U1"), ("currency", "USD"),
   ("fromDate", "2025-04-25"), ("toDate", "2025-04-25"),
   ("startingCash", "0"), ("endingCash", "0"), ("endingSettledCash", "0"),
   ("netTradesPurchases", "0"), ("netTradesSales", "0"),
   ("commissions", "-1.25"), ("otherFees", "0"), ("dividends", "0"),
   ("brokerInterest", "0"), ("deposits", "0"), ("withdrawals", "0")]

/-- A CashReportCurrency element without MTD/YTD attributes. -/
def fixtureCashNoMtd : XmlNode :=
  ⟨"CashReportCurrency", fixtureCashAttrs, []⟩

/-- The same element with the commissions attribute removed. -/
def fixtureCashNoCommissions : XmlNode :=
  ⟨"CashReportCurrency", fixtureCashAttrs.filter (fun p => p.1 != "commissions"), []⟩

/-- The same element with the period moved to 2025-03-09, the date on
which US daylight saving time began in 2025. -/
def fixtureCashDst : XmlNode :=
  ⟨"CashReportCurrency",
   ("fromDate", "2025-03-09") :: ("toDate", "2025-03-09")
     :: fixtureCashAttrs.filter (fun p => p.1 != "fromDate" && p.1 != "toDate"), []⟩

/-- The record decoded from `fixtureCashNoMtd`. -/
def fixtureCashRecNoMtd : CashReport :=
  ⟨"U1", .USD, 1745539200001, 1745625600000, 0, 0, 0, 0, 0,
   mkRat (-5) 4, none, none, 0, none, none, 0, none, none,
   0, none, none, 0, none, none, 0, none, none⟩

/-- The record decoded from `fixtureCashDst`. -/
def fixtureCashRecDst : CashReport :=
  ⟨"U1", .USD, 1741478400001, 1741564800000, 0, 0, 0, 0, 0,
   mkRat (-5) 4, none, none, 0, none, none, 0, none, none,
   0, none, none, 0, none, none, 0, none, none⟩

/-! ## Helper lemmas -/

theorem ROut.bind_eq_ok {α β : Type} {x : ROut α} {f : α → ROut β} {r : β}
    (h : x.bind f = ROut.ok r) : ∃ a, x = ROut.ok a ∧ f a = ROut.ok r := by
  cases x with
  | panicked => exact absurd h (by simp [ROut.bind])
  | error m => exact absurd h (by simp [ROut.bind])
  | ok a => exact ⟨a, rfl, h⟩

theorem ROut.unwrapOpt_eq_ok {α : Type} {o : Option α} {a : α}
    (h : ROut.unwrapOpt o = ROut.ok a) : o = some a := by
  cases o with
  | none => exact absurd h (by simp [ROut.unwrapOpt])
  | some b => simpa [ROut.unwrapOpt] using h

theorem collectROut_ok_forall {α β : Type} {f : α → ROut β} :
    ∀ {l : List α} {bs : List β}, collectROut f l = ROut.ok bs →
      List.Forall₂ (fun a b => f a = ROut.ok b) l bs
  | [], bs, h => by
      simp only [collectROut] at h
      cases h
      exact List.Forall₂.nil
  | x :: xs, bs, h => by
      simp only [collectROut] at h
      cases hx : f x with
      | panicked => rw [hx] at h; exact absurd h (by simp)
      | error m => rw [hx] at h; exact absurd h (by simp)
      | ok b =>
        rw [hx] at h
        cases hr : collectROut f xs with
        | panicked => rw [hr] at h; exact absurd h (by simp)
        | error m => rw [hr] at h; exact absurd h (by simp)
        | ok bs2 =>
          rw [hr] at h
          cases h
          exact List.Forall₂.cons hx (collectROut_ok_forall hr)

theorem collectROut_ok_of_mem {α β : Type} {f : α → ROut β} :
    ∀ {l : List α} {bs : List β} {x : α}, collectROut f l = ROut.ok bs → x ∈ l →
      ∃ b, f x = ROut.ok b
  | [], _, x, _, hm => absurd hm (List.not_mem_nil x)
  | y :: ys, bs, x, h, hm => by
      simp only [collectROut] at h
      cases hy : f y with
      | panicked => rw [hy] at h; exact absurd h (by simp)
      | error m => rw [hy] at h; exact absurd h (by simp)
      | ok b =>
        rw [hy] at h
        cases hr : collectROut f ys with
        | panicked => rw [hr] at h; exact absurd h (by simp)
        | error m => rw [hr] at h; exact absurd h (by simp)
        | ok bs2 =>
          rcases List.mem_cons.mp hm with rfl | hm2
          · exact ⟨b, hy⟩
          · exact collectROut_ok_of_mem hr hm2

theorem collectROut_first_error {α β : Type} {f : α → ROut β} {x : α} {e : String}
    (post : List α) (hx : f x = ROut.error e) :
    ∀ pre : List α, (∀ y ∈ pre, ∃ b, f y = ROut.ok b) →
      collectROut f (pre ++ x :: post) = ROut.error e
  | [], _ => by simp [collectROut, hx]
  | y :: pre, hpre => by
      obtain ⟨b, hb⟩ := hpre y (by simp)
      have ih := collectROut_first_error post hx pre (fun z hz => hpre z (by simp [hz]))
      simp [collectROut, hb, ih]

theorem collectROut_first_panic {α β : Type} {f : α → ROut β} {x : α}
    (post : List α) (hx : f x = ROut.panicked) :
    ∀ pre : List α, (∀ y ∈ pre, ∃ b, f y = ROut.ok b) →
      collectROut f (pre ++ x :: post) = ROut.panicked
  | [], _ => by simp [collectROut, hx]
  | y :: pre, hpre => by
      obtain ⟨b, hb⟩ := hpre y (by simp)
      have ih := collectROut_first_panic post hx pre (fun z hz => hpre z (by simp [hz]))
      simp [collectROut, hb, ih]

theorem splitSpace_no_space : ∀ {l : List Char}, ' ' ∉ l → splitSpace l = [l]
  | [], _ => rfl
  | c :: rest, h => by
      have hc : ¬ c = ' ' := fun hc => h (hc ▸ List.mem_cons_self c rest)
      have ih := splitSpace_no_space (l := rest) (fun hm => h (List.mem_cons_of_mem c hm))
      simp [splitSpace, hc, ih]

theorem nyFromLocal_hour20 (d : Date) : ∃ es, nyFromLocal d 72000 = LocalResult.single es := by
  have hrule : nyFromLocal d 72000 =
      (if naiveKey d 72000 < daysFromCivil ⟨d.year, 3, secondSundayMarch d.year⟩ * 86400 + 7200
        then LocalResult.single (naiveKey d 72000 + 18000)
      else if naiveKey d 72000 < daysFromCivil ⟨d.year, 3, secondSundayMarch d.year⟩ * 86400 + 10800
        then LocalResult.gap
      else if naiveKey d 72000 < daysFromCivil ⟨d.year, 11, firstSundayNovember d.year⟩ * 86400 + 3600
        then LocalResult.single (naiveKey d 72000 + 14400)
      else if naiveKey d 72000 < daysFromCivil ⟨d.year, 11, firstSundayNovember d.year⟩ * 86400 + 7200
        then LocalResult.ambiguous (naiveKey d 72000 + 14400) (naiveKey d 72000 + 18000)
      else LocalResult.single (naiveKey d 72000 + 18000)) := rfl
  rw [hrule]
  have hk : naiveKey d 72000 = daysFromCivil d * 86400 + 72000 := rfl
  by_cases h1 : naiveKey d 72000 <
      daysFromCivil ⟨d.year, 3, secondSundayMarch d.year⟩ * 86400 + 7200
  · rw [if_pos h1]; exact ⟨_, rfl⟩
  · rw [if_neg h1]
    by_cases h2 : naiveKey d 72000 <
        daysFromCivil ⟨d.year, 3, secondSundayMarch d.year⟩ * 86400 + 10800
    · exact absurd hk (by omega)
    · rw [if_neg h2]
      by_cases h3 : naiveKey d 72000 <
          daysFromCivil ⟨d.year, 11, firstSundayNovember d.year⟩ * 86400 + 3600
      · rw [if_pos h3]; exact ⟨_, rfl⟩
      · rw [if_neg h3]
        by_cases h4 : naiveKey d 72000 <
            daysFromCivil ⟨d.year, 11, firstSundayNovember d.year⟩ * 86400 + 7200
        · exact absurd hk (by omega)
        · rw [if_neg h4]; exact ⟨_, rfl⟩

theorem cashReport_from_node_inversion {n : XmlNode} {r : CashReport}
    (h : CashReport.from_node n = ROut.ok r) :
    ∃ fromDate eod,
      lookupAttr n "fromDate" = some fromDate ∧
      trading_eod_after_hours_timestamp_ms fromDate = ROut.ok eod ∧
      r.start_timestamp_ms = eod - 86400000 + 1 ∧
      parse_attribute_opt n parseDecimal "commissionsMTD" = ROut.ok r.commissions_mtd ∧
      parse_attribute_opt n parseDecimal "commissionsYTD" = ROut.ok r.commissions_ytd ∧
      (∃ c, parse_attribute n parseDecimal "commissions" = ROut.ok c) := by
  unfold CashReport.from_node at h
  obtain ⟨fromDate, hfd, h⟩ := ROut.bind_eq_ok h
  obtain ⟨eod, heod, h⟩ := ROut.bind_eq_ok h
  obtain ⟨account_id, _, h⟩ := ROut.bind_eq_ok h
  obtain ⟨currencyStr, _, h⟩ := ROut.bind_eq_ok h
  obtain ⟨currency, _, h⟩ := ROut.bind_eq_ok h
  obtain ⟨starting_cash, _, h⟩ := ROut.bind_eq_ok h
  obtain ⟨ending_cash, _, h⟩ := ROut.bind_eq_ok h
  obtain ⟨ending_settled_cash, _, h⟩ := ROut.bind_eq_ok h
  obtain ⟨ntp, _, h⟩ := ROut.bind_eq_ok h
  obtain ⟨nts, _, h⟩ := ROut.bind_eq_ok h
  obtain ⟨commissions, hcomm, h⟩ := ROut.bind_eq_ok h
  obtain ⟨cmtd, hcmtd, h⟩ := ROut.bind_eq_ok h
  obtain ⟨cytd, hcytd, h⟩ := ROut.bind_eq_ok h
  obtain ⟨ofees, _, h⟩ := ROut.bind_eq_ok h
  obtain ⟨ofmtd, _, h⟩ := ROut.bind_eq_ok h
  obtain ⟨ofytd, _, h⟩ := ROut.bind_eq_ok h
  obtain ⟨divs, _, h⟩ := ROut.bind_eq_ok h
  obtain ⟨dmtd, _, h⟩ := ROut.bind_eq_ok h
  obtain ⟨dytd, _, h⟩ := ROut.bind_eq_ok h
  obtain ⟨intr, _, h⟩ := ROut.bind_eq_ok h
  obtain ⟨imtd, _, h⟩ := ROut.bind_eq_ok h
  obtain ⟨iytd, _, h⟩ := ROut.bind_eq_ok h
  obtain ⟨deps, _, h⟩ := ROut.bind_eq_ok h
  obtain ⟨depmtd, _, h⟩ := ROut.bind_eq_ok h
  obtain ⟨depytd, _, h⟩ := ROut.bind_eq_ok h
  obtain ⟨wds, _, h⟩ := ROut.bind_eq_ok h
  obtain ⟨wmtd, _, h⟩ := ROut.bind_eq_ok h
  obtain ⟨wytd, _, h⟩ := ROut.bind_eq_ok h
  obtain ⟨toDate, _, h⟩ := ROut.bind_eq_ok h
  obtain ⟨eend, _, h⟩ := ROut.bind_eq_ok h
  cases h
  exact ⟨fromDate, eod, ROut.unwrapOpt_eq_ok hfd, heod, by norm_num, hcmtd, hcytd,
    commissions, hcomm⟩

/-! ## Claims -/

/-- C8: for every date string that parses in `%Y-%m-%d` form, the
trading-close conversion yields the epoch-millisecond value of that
date at 20:00:00 local wall clock in America/New_York (that wall-clock
time always resolves to a single instant); for every string that does
not parse as such a date, it fails with a recoverable error instead of
returning a value; concretely, 2025-04-25 yields 1745625600000. -/
theorem trading_close_instant_spec :
    (∀ (s : String) (d : Date) (es : Int), parseDate s = some d →
      newYork.fromLocal d 72000 = LocalResult.single es →
      trading_eod_after_hours_timestamp_ms s = ROut.ok (es * 1000)) ∧
    (∀ d : Date, ∃ es, newYork.fromLocal d 72000 = LocalResult.single es) ∧
    (∀ s : String, parseDate s = none →
      trading_eod_after_hours_timestamp_ms s = ROut.error "input contains invalid characters") ∧
    trading_eod_after_hours_timestamp_ms "2025-04-25" = ROut.ok 1745625600000 := by
  refine ⟨?_, ?_, ?_, by decide⟩
  · intro s d es hp hs
    have h72 : (20 : Nat) * 3600 = 72000 := by norm_num
    simp only [trading_eod_after_hours_timestamp_ms, timestamp_ms_at_hour, hp, h72, hs]
    norm_num
  · intro d
    exact nyFromLocal_hour20 d
  · intro s hp
    simp only [trading_eod_after_hours_timestamp_ms, timestamp_ms_at_hour, hp]

/-- Witness for C8 at the concrete date 2025-04-25. -/
theorem trading_close_instant_spec_witness :
    trading_eod_after_hours_timestamp_ms "2025-04-25" = ROut.ok (1745625600 * 1000) :=
  trading_close_instant_spec.1 "2025-04-25" ⟨2025, 4, 25⟩ 1745625600 (by decide) (by decide)

/-- C4 (amended): for every cash report line whose fromDate has a
trading-close instant, the decoded start_timestamp_ms equals that
instant minus one day of milliseconds (86,400,000) plus one
millisecond.  (The claim's other characterization, the prior calendar
day's close plus one millisecond, fails on DST-transition dates; see
the counterexample.) -/
theorem cash_report_start_formula (n : XmlNode) (s : String) (v : Int) (r : CashReport)
    (hd : lookupAttr n "fromDate" = some s)
    (he : trading_eod_after_hours_timestamp_ms s = ROut.ok v)
    (hr : CashReport.from_node n = ROut.ok r) :
    r.start_timestamp_ms = v - 86400000 + 1 := by
  obtain ⟨fd, eod, hfd, heod, hstart, _, _, _⟩ := cashReport_from_node_inversion hr
  rw [hd] at hfd
  injection hfd with hfd
  subst hfd
  rw [he] at heod
  injection heod with heod
  rw [hstart, heod]

/-- Witness for C4's amended theorem on a concrete cash report line
with fromDate 2025-04-25. -/
theorem cash_report_start_formula_witness :
    CashReport.from_node fixtureCashNoMtd = ROut.ok fixtureCashRecNoMtd ∧
    fixtureCashRecNoMtd.start_timestamp_ms = 1745625600000 - 86400000 + 1 :=
  ⟨by decide,
   cash_report_start_formula fixtureCashNoMtd "2025-04-25" 1745625600000
     fixtureCashRecNoMtd (by decide) (by decide) (by decide)⟩

/-- C4 counterexample: for fromDate 2025-03-09 (the 2025 US
spring-forward date) the decoded start_timestamp_ms is 1741478400001,
which is not the trading-close instant of the prior day 2025-03-08
(1741482000000) plus one millisecond: the two characterizations in the
claim disagree by one hour on this date. -/
theorem cash_report_start_prior_close_counterexample :
    CashReport.from_node fixtureCashDst = ROut.ok fixtureCashRecDst ∧
    trading_eod_after_hours_timestamp_ms "2025-03-08" = ROut.ok 1741482000000 ∧
    fixtureCashRecDst.start_timestamp_ms = 1741478400001 ∧
    fixtureCashRecDst.start_timestamp_ms ≠ 1741482000000 + 1 :=
  ⟨by decide, by decide, by decide, by decide⟩

/-- C9: a cash report element with the commissionsMTD and
commissionsYTD attributes entirely absent decodes (when it decodes at
all) with those fields as none, never zero, while an absent
commissions attribute means the decode can never succeed. -/
theorem cash_report_optional_commissions :
    (∀ (n : XmlNode) (r : CashReport),
      lookupAttr n "commissionsMTD" = none → lookupAttr n "commissionsYTD" = none →
      CashReport.from_node n = ROut.ok r →
      r.commissions_mtd = none ∧ r.commissions_ytd = none) ∧
    (∀ n : XmlNode, lookupAttr n "commissions" = none →
      ∀ r : CashReport, CashReport.from_node n ≠ ROut.ok r) := by
  constructor
  · intro n r hmtd hytd hr
    obtain ⟨_, _, _, _, _, hm, hy, _⟩ := cashReport_from_node_inversion hr
    unfold parse_attribute_opt at hm hy
    rw [hmtd] at hm
    rw [hytd] at hy
    injection hm with hm
    injection hy with hy
    exact ⟨hm.symm, hy.symm⟩
  · intro n hc r hr
    obtain ⟨_, _, _, _, _, _, _, c, hcomm⟩ := cashReport_from_node_inversion hr
    unfold parse_attribute at hcomm
    rw [hc] at hcomm
    exact absurd hcomm (by simp)

/-- Witness for C9 on concrete cash report elements with and without
the commissions attribute. -/
theorem cash_report_optional_commissions_witness :
    CashReport.from_node fixtureCashNoMtd = ROut.ok fixtureCashRecNoMtd ∧
    (fixtureCashRecNoMtd.commissions_mtd = none ∧ fixtureCashRecNoMtd.commissions_ytd = none) ∧
    (CashReport.from_node fixtureCashNoCommissions = ROut.ok fixtureCashRecNoMtd) = False :=
  ⟨by decide,
   cash_report_optional_commissions.1 fixtureCashNoMtd fixtureCashRecNoMtd
     (by decide) (by decide) (by decide),
   eq_false (cash_report_optional_commissions.2 fixtureCashNoCommissions (by decide)
     fixtureCashRecNoMtd)⟩

/-- C5: through the optional accessors, an absent attribute and a
present-but-empty attribute are indistinguishable — both give no
value — and a produced value always comes from a present, non-empty
attribute text that parses, never from a default. -/
theorem optional_accessors_blank_eq_absent :
    (∀ (n : XmlNode) (name : String), lookupAttr n name = none →
      get_attribute_opt n name = none ∧
      ∀ (τ : Type) (p : String → Option τ), parse_attribute_opt n p name = ROut.ok none) ∧
    (∀ (n : XmlNode) (name : String), lookupAttr n name = some "" →
      get_attribute_opt n name = none ∧
      ∀ (τ : Type) (p : String → Option τ), parse_attribute_opt n p name = ROut.ok none) ∧
    (∀ (n : XmlNode) (name t : String), get_attribute_opt n name = some t →
      lookupAttr n name = some t ∧ t ≠ "") ∧
    (∀ (τ : Type) (p : String → Option τ) (n : XmlNode) (name : String) (v : τ),
      parse_attribute_opt n p name = ROut.ok (some v) →
      ∃ s, lookupAttr n name = some s ∧ s ≠ "" ∧ p s = some v) := by
  refine ⟨?_, ?_, ?_, ?_⟩
  · intro n name h
    exact ⟨by unfold get_attribute_opt; rw [h],
      fun τ p => by unfold parse_attribute_opt; rw [h]⟩
  · intro n name h
    exact ⟨by unfold get_attribute_opt; rw [h]; rfl,
      fun τ p => by unfold parse_attribute_opt; rw [h]; rfl⟩
  · intro n name t h
    unfold get_attribute_opt at h
    split at h
    next s heq =>
      by_cases he : s.isEmpty
      · rw [if_pos he] at h; exact absurd h (by simp)
      · rw [if_neg he] at h
        injection h with h
        subst h
        exact ⟨heq, fun h0 => he (by rw [h0]; rfl)⟩
    next heq => exact absurd h (by simp)
  · intro τ p n name v h
    unfold parse_attribute_opt at h
    split at h
    next s heq =>
      by_cases he : s.isEmpty
      · rw [if_pos he] at h
        injection h with h
        exact absurd h (by simp)
      · rw [if_neg he] at h
        split at h
        next hp => exact absurd h (by simp)
        next w hp =>
          injection h with h
          injection h with h
          subst h
          exact ⟨s, heq, fun h0 => he (by rw [h0]; rfl), hp⟩
    next heq =>
      injection h with h
      exact absurd h (by simp)

/-- Witness for C5 on a concrete node with a blank, a missing and a
populated attribute. -/
theorem optional_accessors_blank_eq_absent_witness :
    get_attribute_opt fixtureAttrNode "missing" = none ∧
    parse_attribute_opt fixtureAttrNode parseDecimal "missing" = ROut.ok none ∧
    get_attribute_opt fixtureAttrNode "blank" = none ∧
    parse_attribute_opt fixtureAttrNode parseDecimal "blank" = ROut.ok none ∧
    lookupAttr fixtureAttrNode "present" = some "v" :=
  ⟨(optional_accessors_blank_eq_absent.1 fixtureAttrNode "missing" (by decide)).1,
   (optional_accessors_blank_eq_absent.1 fixtureAttrNode "missing" (by decide)).2 Rat parseDecimal,
   (optional_accessors_blank_eq_absent.2.1 fixtureAttrNode "blank" (by decide)).1,
   (optional_accessors_blank_eq_absent.2.1 fixtureAttrNode "blank" (by decide)).2 Rat parseDecimal,
   (optional_accessors_blank_eq_absent.2.2.1 fixtureAttrNode "present" "v" (by decide)).1⟩

/-- C6: every closed-set decoder maps exactly its table of recognized
strings to the corresponding variant, and every string outside the
recognized set to a decoding failure, never a default variant. -/
theorem closed_set_decoders_exact :
    Currency.tryFrom "BASE_SUMMARY" = Except.ok Currency.BASE ∧
    Currency.tryFrom "CAD" = Except.ok Currency.CAD ∧
    Currency.tryFrom "USD" = Except.ok Currency.USD ∧
    AssetCategory.tryFrom "CRYPTO" = Except.ok AssetCategory.Crypto ∧
    AssetCategory.tryFrom "STK" = Except.ok AssetCategory.Stock ∧
    TradeSide.tryFrom "BUY" = Except.ok TradeSide.Buy ∧
    TradeSide.tryFrom "SELL" = Except.ok TradeSide.Sell ∧
    PositionSide.tryFrom "Long" = Except.ok PositionSide.Long ∧
    PositionSide.tryFrom "Short" = Except.ok PositionSide.Short ∧
    OrderType.tryFrom "LMT" = Except.ok OrderType.Limit ∧
    OpenCloseIndicator.tryFrom "C" = Except.ok OpenCloseIndicator.Close ∧
    OpenCloseIndicator.tryFrom "C;O" = Except.ok OpenCloseIndicator.CloseOpen ∧
    OpenCloseIndicator.tryFrom "O" = Except.ok OpenCloseIndicator.Open ∧
    (∀ s : String, s ≠ "BASE_SUMMARY" → s ≠ "CAD" → s ≠ "USD" →
      Currency.tryFrom s = Except.error ("unknown currency " ++ s)) ∧
    (∀ s : String, s ≠ "CRYPTO" → s ≠ "STK" →
      AssetCategory.tryFrom s = Except.error ("unsupported asset category " ++ s)) ∧
    (∀ s : String, s ≠ "BUY" → s ≠ "SELL" →
      TradeSide.tryFrom s = Except.error ("unknown trade side " ++ s)) ∧
    (∀ s : String, s ≠ "Long" → s ≠ "Short" →
      PositionSide.tryFrom s = Except.error ("unknown position side " ++ s)) ∧
    (∀ s : String, s ≠ "LMT" →
      OrderType.tryFrom s = Except.error ("unknown order type " ++ s)) ∧
    (∀ s : String, s ≠ "C" → s ≠ "C;O" → s ≠ "O" →
      OpenCloseIndicator.tryFrom s = Except.error ("unknown openClose indicator " ++ s)) := by
  refine ⟨rfl, rfl, rfl, rfl, rfl, rfl, rfl, rfl, rfl, rfl, rfl, rfl, rfl,
    ?_, ?_, ?_, ?_, ?_, ?_⟩
  · intro s h1 h2 h3
    unfold Currency.tryFrom
    rw [if_neg h1, if_neg h2, if_neg h3]
  · intro s h1 h2
    unfold AssetCategory.tryFrom
    rw [if_neg h1, if_neg h2]
  · intro s h1 h2
    unfold TradeSide.tryFrom
    rw [if_neg h1, if_neg h2]
  · intro s h1 h2
    unfold PositionSide.tryFrom
    rw [if_neg h1, if_neg h2]
  · intro s h1
    unfold OrderType.tryFrom
    rw [if_neg h1]
  · intro s h1 h2 h3
    unfold OpenCloseIndicator.tryFrom
    rw [if_neg h1, if_neg h2, if_neg h3]

/-- Witness for C6 at concrete unrecognized strings. -/
theorem closed_set_decoders_exact_witness :
    Currency.tryFrom "EUR" = Except.error ("unknown currency " ++ "EUR") ∧
    AssetCategory.tryFrom "BOND" = Except.error ("unsupported asset category " ++ "BOND") ∧
    TradeSide.tryFrom "HOLD" = Except.error ("unknown trade side " ++ "HOLD") ∧
    PositionSide.tryFrom "Flat" = Except.error ("unknown position side " ++ "Flat") ∧
    OrderType.tryFrom "MKT" = Except.error ("unknown order type " ++ "MKT") ∧
    OpenCloseIndicator.tryFrom "X" = Except.error ("unknown openClose indicator " ++ "X") :=
  ⟨closed_set_decoders_exact.2.2.2.2.2.2.2.2.2.2.2.2.2.1 "EUR"
     (by decide) (by decide) (by decide),
   closed_set_decoders_exact.2.2.2.2.2.2.2.2.2.2.2.2.2.2.1 "BOND" (by decide) (by decide),
   closed_set_decoders_exact.2.2.2.2.2.2.2.2.2.2.2.2.2.2.2.1 "HOLD" (by decide) (by decide),
   closed_set_decoders_exact.2.2.2.2.2.2.2.2.2.2.2.2.2.2.2.2.1 "Flat" (by decide) (by decide),
   closed_set_decoders_exact.2.2.2.2.2.2.2.2.2.2.2.2.2.2.2.2.2.1 "MKT" (by decide),
   closed_set_decoders_exact.2.2.2.2.2.2.2.2.2.2.2.2.2.2.2.2.2.2 "X"
     (by decide) (by decide) (by decide)⟩

/-- C7 (amended): the required-string accessor returns the attribute
text when the attribute is present; when it is absent it panics (an
abort through an unchecked unwrap), not a recoverable returned
MissingAttribute error. -/
theorem get_attribute_behavior :
    (∀ (n : XmlNode) (name s : String), lookupAttr n name = some s →
      get_attribute n name = ROut.ok s) ∧
    (∀ (n : XmlNode) (name : String), lookupAttr n name = none →
      get_attribute n name = ROut.panicked) := by
  constructor
  · intro n name s h
    simp [get_attribute, h]
  · intro n name h
    simp [get_attribute, h]

/-- Witness for C7's amended theorem on a concrete node. -/
theorem get_attribute_behavior_witness :
    get_attribute fixtureAttrNode "present" = ROut.ok "v" ∧
    get_attribute fixtureAttrNode "missing" = ROut.panicked :=
  ⟨get_attribute_behavior.1 fixtureAttrNode "present" "v" (by decide),
   get_attribute_behavior.2 fixtureAttrNode "missing" (by decide)⟩

/-- C7 counterexample: requesting an absent attribute on a concrete
element panics (aborts); it does not return a recoverable
MissingAttribute error value to the caller. -/
theorem get_attribute_missing_aborts_counterexample :
    get_attribute fixtureAttrNode "accountId" = ROut.panicked ∧
    (ROut.panicked : ROut String) ≠ ROut.error "MissingAttribute" := by
  exact ⟨by decide, by decide⟩

/-- C10: when the trade dateTime attribute string contains no space
character, the execution-time conversion panics on the unwrap of the
missing second token instead of returning a recoverable decode error,
for every timezone table. -/
theorem trade_execution_no_space_panics (tz_map : List (String × Tz)) (s : String)
    (h : ' ' ∉ s.data) :
    try_parse_trade_execution_time_ms tz_map s = ROut.panicked := by
  unfold try_parse_trade_execution_time_ms
  rw [splitSpace_no_space h]

/-- Witness for C10 on a concrete space-free dateTime string. -/
theorem trade_execution_no_space_panics_witness :
    try_parse_trade_execution_time_ms defaultTimezoneMap "2025-04-25;10:19:55" = ROut.panicked :=
  trade_execution_no_space_panics defaultTimezoneMap "2025-04-25;10:19:55" (by decide)

/-- C1 (amended): for a trade dateTime string that splits into a
datetime token and a timezone-abbreviation token, if the abbreviation
is a key of the caller-supplied table then the naive datetime is
interpreted as local wall clock in the resolved timezone and converted
to epoch milliseconds; if the abbreviation is not a key, the
conversion panics on an unchecked unwrap (a process abort), not a
recoverable UnknownTimezoneAbbreviation error returned to the
caller. -/
theorem trade_execution_instant_spec :
    (∀ (tz_map : List (String × Tz)) (s : String) (dtTok tzTok : List Char)
        (rest : List (List Char)) (tz : Tz) (d : Date) (secs : Nat) (es : Int),
      splitSpace s.data = dtTok :: tzTok :: rest →
      (tz_map.find? (fun p => p.1 == String.mk tzTok)).map (fun p => p.2) = some tz →
      parseTradeDateTime dtTok = some (d, secs) →
      tz.fromLocal d secs = LocalResult.single es →
      try_parse_trade_execution_time_ms tz_map s = ROut.ok (es * 1000)) ∧
    (∀ (tz_map : List (String × Tz)) (s : String) (dtTok tzTok : List Char)
        (rest : List (List Char)),
      splitSpace s.data = dtTok :: tzTok :: rest →
      (tz_map.find? (fun p => p.1 == String.mk tzTok)).map (fun p => p.2) = none →
      try_parse_trade_execution_time_ms tz_map s = ROut.panicked) := by
  constructor
  · intro tz_map s dtTok tzTok rest tz d secs es hsplit hfind hparse hsingle
    unfold try_parse_trade_execution_time_ms
    rw [hsplit]
    simp only [hfind, hparse, hsingle]
  · intro tz_map s dtTok tzTok rest hsplit hfind
    unfold try_parse_trade_execution_time_ms
    rw [hsplit]
    simp only [hfind]

/-- Witness for C1's amended theorem: the repository's example
dateTime with the shipped table resolves to 1745590795000, and the
same string with an empty table panics. -/
theorem trade_execution_instant_spec_witness :
    try_parse_trade_execution_time_ms defaultTimezoneMap "2025-04-25;10:19:55 EDT" =
        ROut.ok (1745590795 * 1000) ∧
    try_parse_trade_execution_time_ms [] "2025-04-25;10:19:55 EDT" = ROut.panicked :=
  ⟨trade_execution_instant_spec.1 defaultTimezoneMap "2025-04-25;10:19:55 EDT"
     ("2025-04-25;10:19:55".data) ("EDT".data) [] newYork ⟨2025, 4, 25⟩ 37195 1745590795
     (by decide) rfl (by decide) (by decide),
   trade_execution_instant_spec.2 [] "2025-04-25;10:19:55 EDT"
     ("2025-04-25;10:19:55".data) ("EDT".data) [] (by decide) rfl⟩

/-- C1 counterexample: with the empty timezone table, the example
conversion panics (aborts the process at the unwrap of the table
lookup); it does not return the recoverable UnknownTimezoneAbbreviation
error value the claim describes. -/
theorem trade_execution_unknown_abbrev_counterexample :
    try_parse_trade_execution_time_ms [] "2025-04-25;10:19:55 EDT" = ROut.panicked ∧
    (ROut.panicked : ROut Int) ≠ ROut.error "UnknownTimezoneAbbreviation" :=
  ⟨by decide, by decide⟩

/-- C2: a statement boundary whose AccountInformation sections decode
to zero matches or to more than one match makes the statement decode
fail with a statement-structure error, and any such boundary anywhere
in a document prevents the document from producing any statements;
with exactly one match, that match's account identifier becomes the
statement's account identity. -/
theorem single_account_identity_required :
    (∀ (tz_map : List (String × Tz)) (node : XmlNode),
      parse_section AccountInfo.from_node node "AccountInformation" = ROut.ok [] →
      parse_flex_statement tz_map node = ROut.error "no account information sections found" ∧
      IsStatementStructureError "no account information sections found") ∧
    (∀ (tz_map : List (String × Tz)) (node : XmlNode) (a b : AccountInfo) (l : List AccountInfo),
      parse_section AccountInfo.from_node node "AccountInformation" = ROut.ok (a :: b :: l) →
      parse_flex_statement tz_map node = ROut.error "multiple account information sections found" ∧
      IsStatementStructureError "multiple account information sections found") ∧
    (∀ (tz_map : List (String × Tz)) (node : XmlNode) (a : AccountInfo) (st : Statement),
      parse_section AccountInfo.from_node node "AccountInformation" = ROut.ok [a] →
      parse_flex_statement tz_map node = ROut.ok st → st.account_info = a) ∧
    (∀ (tz_map : List (String × Tz)) (doc node : XmlNode),
      node ∈ flexStatementNodes doc →
      (parse_section AccountInfo.from_node node "AccountInformation" = ROut.ok [] ∨
        ∃ a b l, parse_section AccountInfo.from_node node "AccountInformation" =
          ROut.ok (a :: b :: l)) →
      ∀ sts, parse_flex_query_response tz_map doc ≠ ROut.ok sts) := by
  have hzero : ∀ (tz_map : List (String × Tz)) (node : XmlNode),
      parse_section AccountInfo.from_node node "AccountInformation" = ROut.ok [] →
      parse_flex_statement tz_map node = ROut.error "no account information sections found" := by
    intro tz_map node h
    unfold parse_flex_statement
    rw [h]
    rfl
  have hmulti : ∀ (tz_map : List (String × Tz)) (node : XmlNode) (a b : AccountInfo)
      (l : List AccountInfo),
      parse_section AccountInfo.from_node node "AccountInformation" = ROut.ok (a :: b :: l) →
      parse_flex_statement tz_map node =
        ROut.error "multiple account information sections found" := by
    intro tz_map node a b l h
    unfold parse_flex_statement
    rw [h]
    show (if (a :: b :: l).length > 1 then
        ROut.error "multiple account information sections found" else _) = _
    rw [if_pos (by simp)]
  refine ⟨fun m n h => ⟨hzero m n h, Or.inl rfl⟩,
    fun m n a b l h => ⟨hmulti m n a b l h, Or.inr rfl⟩, ?_, ?_⟩
  · intro tz_map node a st h hok
    unfold parse_flex_statement at hok
    obtain ⟨ais, hais, hok⟩ := ROut.bind_eq_ok hok
    rw [h] at hais
    injection hais with hais
    subst hais
    rw [if_neg (by simp)] at hok
    obtain ⟨cash, _, hok⟩ := ROut.bind_eq_ok hok
    obtain ⟨eqs, _, hok⟩ := ROut.bind_eq_ok hok
    obtain ⟨fifos, _, hok⟩ := ROut.bind_eq_ok hok
    obtain ⟨nets, _, hok⟩ := ROut.bind_eq_ok hok
    obtain ⟨opens, _, hok⟩ := ROut.bind_eq_ok hok
    obtain ⟨trades, _, hok⟩ := ROut.bind_eq_ok hok
    cases hok
    rfl
  · intro tz_map doc node hm hbad sts hok
    unfold parse_flex_query_response at hok
    obtain ⟨st, hst⟩ := collectROut_ok_of_mem hok hm
    rcases hbad with hb | ⟨a, b, l, hb⟩
    · rw [hzero tz_map node hb] at hst
      exact absurd hst (by simp)
    · rw [hmulti tz_map node a b l hb] at hst
      exact absurd hst (by simp)

/-- Witness for C2 on concrete statements with zero, two and one
AccountInformation sections, and a concrete two-statement document. -/
theorem single_account_identity_required_witness :
    parse_flex_statement defaultTimezoneMap fixtureStatementZero =
        ROut.error "no account information sections found" ∧
    parse_flex_statement defaultTimezoneMap fixtureStatementTwo =
        ROut.error "multiple account information sections found" ∧
    fixtureDecodedOne.account_info = AccountInfo.mk "U1" ∧
    (parse_flex_query_response defaultTimezoneMap fixtureDocOneThenZero = ROut.ok []) = False :=
  ⟨(single_account_identity_required.1 defaultTimezoneMap fixtureStatementZero rfl).1,
   (single_account_identity_required.2.1 defaultTimezoneMap fixtureStatementTwo
     ⟨"U1"⟩ ⟨"U2"⟩ [] rfl).1,
   single_account_identity_required.2.2.1 defaultTimezoneMap fixtureStatementOne
     ⟨"U1"⟩ fixtureDecodedOne rfl rfl,
   eq_false (single_account_identity_required.2.2.2 defaultTimezoneMap fixtureDocOneThenZero
     fixtureStatementZero
     (by rw [show flexStatementNodes fixtureDocOneThenZero =
         [fixtureStatementOne, fixtureStatementZero] from rfl]
         exact List.mem_cons_of_mem _ (List.mem_singleton.mpr rfl))
     (Or.inl rfl) [])⟩

/-- C3: document decoding is all-or-nothing: a successful parse
returns exactly the decode of every statement boundary in document
order, and if the statements before some boundary decode while that
boundary fails, the whole parse returns that boundary's failure — its
error for a recoverable failure, its panic for a panic — and no
statements. -/
theorem parse_all_or_nothing :
    (∀ (tz_map : List (String × Tz)) (doc : XmlNode) (sts : List Statement),
      parse_flex_query_response tz_map doc = ROut.ok sts →
      List.Forall₂ (fun node st => parse_flex_statement tz_map node = ROut.ok st)
        (flexStatementNodes doc) sts) ∧
    (∀ (tz_map : List (String × Tz)) (doc : XmlNode) (pre : List XmlNode) (node : XmlNode)
        (post : List XmlNode),
      flexStatementNodes doc = pre ++ node :: post →
      (∀ y ∈ pre, ∃ st, parse_flex_statement tz_map y = ROut.ok st) →
      (∀ e, parse_flex_statement tz_map node = ROut.error e →
        parse_flex_query_response tz_map doc = ROut.error e) ∧
      (parse_flex_statement tz_map node = ROut.panicked →
        parse_flex_query_response tz_map doc = ROut.panicked)) := by
  constructor
  · intro tz_map doc sts h
    unfold parse_flex_query_response at h
    exact collectROut_ok_forall h
  · intro tz_map doc pre node post hsplit hpre
    constructor
    · intro e he
      unfold parse_flex_query_response
      rw [hsplit]
      exact collectROut_first_error post he pre hpre
    · intro hp
      unfold parse_flex_query_response
      rw [hsplit]
      exact collectROut_first_panic post hp pre hpre

/-- Witness for C3 on a concrete document whose first statement
decodes and whose second statement fails. -/
theorem parse_all_or_nothing_witness :
    parse_flex_query_response defaultTimezoneMap fixtureDocOneThenZero =
      ROut.error "no account information sections found" :=
  (parse_all_or_nothing.2 defaultTimezoneMap fixtureDocOneThenZero [fixtureStatementOne]
      fixtureStatementZero [] rfl
      (fun y hy => ⟨fixtureDecodedOne, by rw [List.mem_singleton.mp hy]; rfl⟩)).1
    "no account information sections found" rfl
